import Mathlib

/-!
Verification of the promotions service (`service/models.py`, `service/routes.py`).

The embedding models:
  * Python `datetime.date` values as `PyDate` (year/month/day), with the
    lexicographic comparison Python uses, `timedelta(days=1)` subtraction
    (`predDate`) and strict ISO-8601 `YYYY-MM-DD` parsing/printing
    (`date.fromisoformat` / `date.isoformat`);
  * JSON-ish Python values as `PyVal` (None, bool, int, float, str);
  * the in-memory `Promotion` object as `PromotionObj` (a fresh
    `Promotion()` has all attributes `None`, hence the `Option` dates);
  * the model layer: `serialize`, `deserialize`, `find`, `find_by_name`,
    `find_by_promotion_type`, `find_by_product_id`, `find_active`;
  * the route layer: `list_promotions` dispatch (`listPromotions`),
    `deactivate_promotion`, `update_promotions`, `delete_promotions`,
    with `abort(status, msg)` modelled as `Except.error (status, msg)`
    and the database as a `List PromotionObj`.
-/

namespace Promotions

/-! ## Dates -/

/-- Python `datetime.date`: a calendar date with 1 ≤ year ≤ 9999. -/
structure PyDate where
  year : Nat
  month : Nat
  day : Nat
deriving DecidableEq

/-- Python date comparison `a < b`: lexicographic on (year, month, day). -/
def PyDate.ltb (a b : PyDate) : Bool :=
  a.year < b.year ||
    (a.year == b.year &&
      (a.month < b.month || (a.month == b.month && a.day < b.day)))

/-- Python date comparison `a <= b`. -/
def PyDate.leb (a b : PyDate) : Bool :=
  PyDate.ltb a b || a == b

/-- Python `min(a, b)` on dates: returns `a` unless `b < a`. -/
def pyMin (a b : PyDate) : PyDate :=
  if PyDate.ltb b a then b else a

/-- Gregorian leap-year rule used by `datetime`. -/
def isLeap (y : Nat) : Bool :=
  y % 4 == 0 && (y % 100 != 0 || y % 400 == 0)

/-- Days in a month, as in `calendar`/`datetime`. -/
def daysInMonth (y m : Nat) : Nat :=
  if m == 2 then (if isLeap y then 29 else 28)
  else if m == 4 || m == 6 || m == 9 || m == 11 then 30
  else 31

/-- `d - timedelta(days=1)`: the previous calendar day. -/
def predDate (d : PyDate) : PyDate :=
  if 1 < d.day then ⟨d.year, d.month, d.day - 1⟩
  else if 1 < d.month then ⟨d.year, d.month - 1, daysInMonth d.year (d.month - 1)⟩
  else ⟨d.year - 1, 12, 31⟩

/-! ## ISO-8601 date strings -/

/-- Value of an ASCII digit character, `none` for non-digits. -/
def digitVal (c : Char) : Option Nat :=
  if c = '0' then some 0
  else if c = '1' then some 1
  else if c = '2' then some 2
  else if c = '3' then some 3
  else if c = '4' then some 4
  else if c = '5' then some 5
  else if c = '6' then some 6
  else if c = '7' then some 7
  else if c = '8' then some 8
  else if c = '9' then some 9
  else none

/-- ASCII digit character of a value below 10. -/
def digitChr : Nat → Char
  | 0 => '0'
  | 1 => '1'
  | 2 => '2'
  | 3 => '3'
  | 4 => '4'
  | 5 => '5'
  | 6 => '6'
  | 7 => '7'
  | 8 => '8'
  | 9 => '9'
  | _ => '*'

/-- `date.fromisoformat` on the character list: strict `YYYY-MM-DD`
(four digit year, two digit month and day, dash separators, valid
calendar ranges with year at least 1). -/
def parseIsoChars : List Char → Option PyDate
  | [y1, y2, y3, y4, s1, m1, m2, s2, d1, d2] =>
    if s1 = '-' ∧ s2 = '-' then
      match digitVal y1, digitVal y2, digitVal y3, digitVal y4,
            digitVal m1, digitVal m2, digitVal d1, digitVal d2 with
      | some a, some b, some c, some e, some f, some g, some h, some i =>
        if 1 ≤ ((a * 10 + b) * 10 + c) * 10 + e ∧
            1 ≤ f * 10 + g ∧ f * 10 + g ≤ 12 ∧ 1 ≤ h * 10 + i ∧
            h * 10 + i ≤ daysInMonth (((a * 10 + b) * 10 + c) * 10 + e) (f * 10 + g) then
          some ⟨((a * 10 + b) * 10 + c) * 10 + e, f * 10 + g, h * 10 + i⟩
        else none
      | _, _, _, _, _, _, _, _ => none
    else none
  | _ => none

/-- `date.fromisoformat(s)` as a partial function (`none` = `ValueError`). -/
def parseIso (s : String) : Option PyDate :=
  parseIsoChars s.toList

/-- Character list of `date.isoformat()`: `YYYY-MM-DD`, zero padded. -/
def isoChars (d : PyDate) : List Char :=
  [digitChr (d.year / 1000 % 10), digitChr (d.year / 100 % 10),
   digitChr (d.year / 10 % 10), digitChr (d.year % 10), '-',
   digitChr (d.month / 10 % 10), digitChr (d.month % 10), '-',
   digitChr (d.day / 10 % 10), digitChr (d.day % 10)]

/-- `date.isoformat()`. -/
def toIso (d : PyDate) : String :=
  String.mk (isoChars d)

/-! ## Python values and payload mappings -/

/-- A JSON-ish Python value as it appears in request payloads. -/
inductive PyVal where
  | pyNone
  | pyBool (b : Bool)
  | pyInt (n : Int)
  | pyFloat
  | pyStr (s : String)
deriving DecidableEq

open PyVal

/-- Python `isinstance(v, int)`: true for `int` AND for `bool`,
because `bool` is a subclass of `int` in Python. -/
def isPyInt : PyVal → Bool
  | pyInt _ => true
  | pyBool _ => true
  | _ => false

/-- A payload mapping (Python `dict` with string keys); keys are unique. -/
abbrev Payload := List (String × PyVal)

/-- `data.get(k)` / membership lookup on a payload. -/
def pyGet (data : Payload) (k : String) : Option PyVal :=
  (data.find? (fun kv => decide (kv.1 = k))).map (fun kv => kv.2)

/-- Python `str(v)` (as used by the update route's id comparison). -/
def pyToStr : PyVal → String
  | pyNone => "None"
  | pyBool b => if b then "True" else "False"
  | pyInt n => toString n
  | pyFloat => "float"
  | pyStr s => s

/-- Strip leading and trailing whitespace from a character list. -/
def stripChars (cs : List Char) : List Char :=
  ((cs.dropWhile Char.isWhitespace).reverse.dropWhile Char.isWhitespace).reverse

/-- Python `s.strip()` (whitespace removal at both ends). -/
def pyStrip (s : String) : String :=
  String.mk (stripChars s.toList)

/-- Lowercase an ASCII letter (Python `str.lower` restricted to the
ASCII range, which covers every value the service compares against). -/
def asciiLowerChar (c : Char) : Char :=
  if 65 ≤ c.toNat ∧ c.toNat ≤ 90 then Char.ofNat (c.toNat + 32) else c

/-- Python `s.lower()`. -/
def pyLower (s : String) : String :=
  String.mk (s.toList.map asciiLowerChar)

/-- Value of a non-empty all-digit character list, `none` otherwise. -/
def digitsVal (cs : List Char) : Option Nat :=
  cs.foldl
    (fun acc c =>
      match acc, digitVal c with
      | some a, some d => some (a * 10 + d)
      | _, _ => none)
    (if cs.isEmpty then none else some 0)

/-- Python `int(s)` on a string: optional sign before decimal digits,
surrounding whitespace tolerated; `none` = `ValueError`. -/
def pyParseInt (s : String) : Option Int :=
  match stripChars s.toList with
  | '-' :: rest => (digitsVal rest).map (fun n => -(n : Int))
  | '+' :: rest => (digitsVal rest).map (fun n => (n : Int))
  | t => (digitsVal t).map (fun n => (n : Int))

/-! ## The Promotion object (`service/models.py`) -/

/-- The in-memory `Promotion` object. `deserialize` performs no type
check on `name`/`promotion_type`/`value`/`product_id` beyond the
`isinstance(..., int)` guard on the last two, so those attributes hold
arbitrary Python values; a fresh `Promotion()` has every attribute
`None`, hence the `Option` dates. -/
structure PromotionObj where
  id : Option Int
  name : PyVal
  promotion_type : PyVal
  value : PyVal
  product_id : PyVal
  start_date : Option PyDate
  end_date : Option PyDate
deriving DecidableEq

/-- A fresh `Promotion()` (all column attributes `None`). -/
def emptyPromotion : PromotionObj :=
  ⟨none, pyNone, pyNone, pyNone, pyNone, none, none⟩

/-- `Promotion.serialize`: dictionary with dates in ISO form
(`isoformat()` when set, `None` otherwise). -/
def serialize (p : PromotionObj) : Payload :=
  [("id", match p.id with | some i => pyInt i | none => pyNone),
   ("name", p.name),
   ("promotion_type", p.promotion_type),
   ("value", p.value),
   ("product_id", p.product_id),
   ("start_date", match p.start_date with | some d => pyStr (toIso d) | none => pyNone),
   ("end_date", match p.end_date with | some d => pyStr (toIso d) | none => pyNone)]

/-- Error message for a missing `name`/`promotion_type` key
(`KeyError` handler: `"Invalid promotion: missing <key>"`). -/
def missingMsg (k : String) : String :=
  "Invalid promotion: missing \x27" ++ k ++ "\x27"

/-- Error message of the integer guard on `value`/`product_id`. -/
def intFieldMsg (k : String) : String :=
  "Field \x27" ++ k ++ "\x27 must be an integer"

/-- Error message of the per-field date validation. -/
def badDateMsg (k : String) : String :=
  "Field \x27" ++ k ++ "\x27 must be an ISO date (YYYY-MM-DD)"

/-- `Promotion.deserialize(data)` on object `p`, returning the updated
object or the `DataValidationError` message. Faithful to the source
order: `name` and `promotion_type` are read first (a missing key raises
`KeyError`, caught as "missing field"); then `value` and `product_id`
pass through `isinstance(data.get(k), int)` (a missing key fails that
guard, yielding the integer-type message, not the missing-field one);
then each date is parsed inside its own `try` whose handler catches
`KeyError`/`TypeError`/`ValueError` alike, so a missing or non-string
date also yields the ISO-date message. `id` is not touched. -/
def deserialize (p : PromotionObj) (data : Payload) : Except String PromotionObj :=
  match pyGet data "name" with
  | none => .error (missingMsg "name")
  | some nv =>
    match pyGet data "promotion_type" with
    | none => .error (missingMsg "promotion_type")
    | some tv =>
      match pyGet data "value" with
      | some vv =>
        if isPyInt vv then
          match pyGet data "product_id" with
          | some pv =>
            if isPyInt pv then
              match pyGet data "start_date" with
              | some (pyStr sds) =>
                match parseIso sds with
                | some sd =>
                  match pyGet data "end_date" with
                  | some (pyStr eds) =>
                    match parseIso eds with
                    | some ed =>
                      .ok { p with
                        name := nv, promotion_type := tv,
                        value := vv, product_id := pv,
                        start_date := some sd, end_date := some ed }
                    | none => .error (badDateMsg "end_date")
                  | _ => .error (badDateMsg "end_date")
                | none => .error (badDateMsg "start_date")
              | _ => .error (badDateMsg "start_date")
            else .error (intFieldMsg "product_id")
          | none => .error (intFieldMsg "product_id")
        else .error (intFieldMsg "value")
      | none => .error (intFieldMsg "value")

/-! ## Model query methods (database = `List PromotionObj`) -/

/-- `Promotion.find` after the `int(by_id)` conversion: primary-key get. -/
def findById (db : List PromotionObj) (pid : Int) : Option PromotionObj :=
  db.find? (fun p => decide (p.id = some pid))

/-- `Promotion.find(by_id)` on a raw string id: non-integer → `None`. -/
def findByIdStr (db : List PromotionObj) (s : String) : Option PromotionObj :=
  match pyParseInt s with
  | none => none
  | some pid => findById db pid

/-- `Promotion.find_by_name`: exact match list. -/
def findByName (db : List PromotionObj) (n : String) : List PromotionObj :=
  db.filter (fun p => decide (p.name = pyStr n))

/-- `Promotion.find_by_promotion_type`: exact match list. -/
def findByPromotionType (db : List PromotionObj) (t : String) : List PromotionObj :=
  db.filter (fun p => decide (p.promotion_type = pyStr t))

/-- `Promotion.find_by_product_id`: `int()` conversion, `[]` on failure. -/
def findByProductId (db : List PromotionObj) (s : String) : List PromotionObj :=
  match pyParseInt s with
  | none => []
  | some pid => db.filter (fun p => decide (p.product_id = pyInt pid))

/-- The predicate of `Promotion.find_active`:
`start_date <= on_date` and `end_date >= on_date` (records with SQL-null
dates match neither comparison). -/
def activeOn (today : PyDate) (p : PromotionObj) : Bool :=
  match p.start_date, p.end_date with
  | some s, some e => PyDate.leb s today && PyDate.leb today e
  | _, _ => false

/-- `Promotion.find_active(on_date)`. -/
def findActive (db : List PromotionObj) (today : PyDate) : List PromotionObj :=
  db.filter (activeOn today)

/-- The inactive predicate of the route's `active=false` branch:
`start_date > today OR end_date < today` (SQL-null dates match neither). -/
def inactiveOn (today : PyDate) (p : PromotionObj) : Bool :=
  match p.start_date, p.end_date with
  | some s, some e => PyDate.ltb today s || PyDate.ltb e today
  | _, _ => false

/-! ## Route layer (`service/routes.py`) -/

/-- `_parse_bool_strict`: trimmed, lowercased; `true/1/yes` and
`false/0/no` accepted, anything else `None`. -/
def parseBoolStrict (s : String) : Option Bool :=
  let v := pyLower (pyStrip s)
  if v = "true" ∨ v = "1" ∨ v = "yes" then some true
  else if v = "false" ∨ v = "0" ∨ v = "no" then some false
  else none

/-- Python truthiness of an optional query-string value:
`if param:` is true iff the parameter is present and non-empty. -/
def optTruthy : Option String → Bool
  | none => false
  | some s => !s.isEmpty

/-- The 400 message of the `active` filter. -/
def invalidActiveMsg (raw : String) : String :=
  "Invalid value for query parameter \x27active\x27. " ++
    "Accepted: true, false, 1, 0, yes, no (case-insensitive). " ++
    "Received: \x27" ++ raw ++ "\x27"

/-- The 404 message shared by the read/update/deactivate/delete routes. -/
def notFoundMsg (pid : Int) : String :=
  "Promotion with id \x27" ++ toString pid ++ "\x27 was not found."

/-- `list_promotions`: filter dispatch with precedence
id > active > name > product_id > promotion_type > all. The string
filters are tested with Python truthiness (absent or empty = skipped);
`active` is tested with `is not None` and aborts 400 on an
unparseable value. `abort` is `Except.error (status, message)`. -/
def listPromotions (db : List PromotionObj) (today : PyDate)
    (idp act nm pidp pt : Option String) :
    Except (Nat × String) (List PromotionObj) :=
  if optTruthy idp then
    .ok (match findByIdStr db ((idp.getD "")) with
         | some p => [p]
         | none => [])
  else
    match act with
    | some a =>
      match parseBoolStrict a with
      | none => .error (400, invalidActiveMsg a)
      | some true => .ok (findActive db today)
      | some false => .ok (db.filter (inactiveOn today))
    | none =>
      if optTruthy nm then .ok (findByName db (pyStrip (nm.getD "")))
      else if optTruthy pidp then .ok (findByProductId db (pyStrip (pidp.getD "")))
      else if optTruthy pt then .ok (findByPromotionType db (pyStrip (pt.getD "")))
      else .ok db

/-- Replace every record with primary key `pid` by `q` (the ORM mutates
the found identity in place; keys are unique in the store). -/
def replaceById (db : List PromotionObj) (pid : Int) (q : PromotionObj) :
    List PromotionObj :=
  db.map (fun r => if r.id = some pid then q else r)

/-- `Promotion.update()` raises `DataValidationError` when `not self.id`
(Python truthiness: `None` or `0`). -/
def updateRejectsId (i : Option Int) : Bool :=
  match i with
  | none => true
  | some n => n == 0

/-- The message of `Promotion.update()`'s id guard. -/
def updateIdMsg : String :=
  "Field \x27id\x27 is required for update"

/-- `deactivate_promotion`: 404 when the id is absent; otherwise set
`end_date = min(end_date, today - 1)` and `update()`, returning the
updated record and store (200). -/
def deactivateHandler (db : List PromotionObj) (today : PyDate) (pid : Int) :
    Except (Nat × String) (PromotionObj × List PromotionObj) :=
  match findById db pid with
  | none => .error (404, notFoundMsg pid)
  | some p =>
    let p2 := { p with end_date := p.end_date.map (fun e => pyMin e (predDate today)) }
    if updateRejectsId p2.id then .error (400, updateIdMsg)
    else .ok (p2, replaceById db pid p2)

/-- `update_promotions`: 404 when the id is absent; 400 when the body
carries an `id` whose `str()` differs from the path id; then
`deserialize` into the found record (400 on validation error), force
the path id, and `update()`. -/
def updateHandler (db : List PromotionObj) (pid : Int) (data : Payload) :
    Except (Nat × String) (PromotionObj × List PromotionObj) :=
  match findById db pid with
  | none => .error (404, notFoundMsg pid)
  | some p =>
    if (match pyGet data "id" with
        | some v => !(pyToStr v == toString pid)
        | none => false) then
      .error (400, "ID in body must match resource path")
    else
      match deserialize p data with
      | .error e => .error (400, e)
      | .ok p1 =>
        let p2 := { p1 with id := some pid }
        if updateRejectsId p2.id then .error (400, updateIdMsg)
        else .ok (p2, replaceById db pid p2)

/-- `delete_promotions`: 404 when the id is absent; otherwise delete the
record and return 204 with an empty body. -/
def deleteHandler (db : List PromotionObj) (pid : Int) :
    Except (Nat × String) (Nat × List PromotionObj) :=
  match findById db pid with
  | none => .error (404, notFoundMsg pid)
  | some _ => .ok (204, db.filter (fun r => !(decide (r.id = some pid))))

end Promotions

deriving instance DecidableEq for Except

namespace Promotions

open PyVal

/-! ## Helper lemmas -/

theorem ltb_irrefl (a : PyDate) : PyDate.ltb a a = false := by
  simp [PyDate.ltb]

theorem ltb_asymm {a b : PyDate} (h : PyDate.ltb a b = true) :
    PyDate.ltb b a = false := by
  simp [PyDate.ltb] at *
  omega

theorem pyMin_eq_right {e y : PyDate} (h : PyDate.leb y e = true) :
    pyMin e y = y := by
  by_cases hlt : PyDate.ltb y e = true
  · simp [pyMin, hlt]
  · have heq : y = e := by
      simp [PyDate.leb, hlt] at h
      exact h
    subst heq
    simp [pyMin, ltb_irrefl]

theorem pyMin_eq_left {e y : PyDate} (h : PyDate.ltb e y = true) :
    pyMin e y = e := by
  unfold pyMin
  rw [ltb_asymm h]
  simp

theorem pyMin_idem (e y : PyDate) : pyMin (pyMin e y) y = pyMin e y := by
  unfold pyMin
  split_ifs with h1 h2 <;> simp_all [ltb_irrefl]

theorem digitVal_lt_ten {c : Char} {k : Nat} (h : digitVal c = some k) :
    k < 10 := by
  unfold digitVal at h
  split_ifs at h <;> simp_all <;> omega

theorem digitChr_digitVal {c : Char} {k : Nat} (h : digitVal c = some k) :
    digitChr k = c := by
  unfold digitVal at h
  split_ifs at h <;>
    (rename_i hc
     rw [Option.some.injEq] at h
     subst h
     subst hc
     rfl)

theorem parseIsoChars_roundtrip {cs : List Char} {d : PyDate}
    (h : parseIsoChars cs = some d) : isoChars d = cs := by
  unfold parseIsoChars at h
  split at h
  case h_2 => simp at h
  case h_1 y1 y2 y3 y4 s1 m1 m2 s2 d1 d2 =>
    split at h
    case isFalse => simp at h
    case isTrue hsep =>
      split at h
      case h_2 => simp at h
      case h_1 a b c e f g hh i heq1 heq2 heq3 heq4 heq5 heq6 heq7 heq8 =>
        split at h
        case isFalse => simp at h
        case isTrue hrange =>
          rw [Option.some.injEq] at h
          subst h
          have ba := digitVal_lt_ten heq1
          have bb := digitVal_lt_ten heq2
          have bc := digitVal_lt_ten heq3
          have be := digitVal_lt_ten heq4
          have bf := digitVal_lt_ten heq5
          have bg := digitVal_lt_ten heq6
          have bh := digitVal_lt_ten heq7
          have bi := digitVal_lt_ten heq8
          have e1 : (((a * 10 + b) * 10 + c) * 10 + e) / 1000 % 10 = a := by omega
          have e2 : (((a * 10 + b) * 10 + c) * 10 + e) / 100 % 10 = b := by omega
          have e3 : (((a * 10 + b) * 10 + c) * 10 + e) / 10 % 10 = c := by omega
          have e4 : (((a * 10 + b) * 10 + c) * 10 + e) % 10 = e := by omega
          have e5 : (f * 10 + g) / 10 % 10 = f := by omega
          have e6 : (f * 10 + g) % 10 = g := by omega
          have e7 : (hh * 10 + i) / 10 % 10 = hh := by omega
          have e8 : (hh * 10 + i) % 10 = i := by omega
          simp only [isoChars, e1, e2, e3, e4, e5, e6, e7, e8,
            digitChr_digitVal heq1, digitChr_digitVal heq2,
            digitChr_digitVal heq3, digitChr_digitVal heq4,
            digitChr_digitVal heq5, digitChr_digitVal heq6,
            digitChr_digitVal heq7, digitChr_digitVal heq8]
          simp [hsep.1, hsep.2]

theorem parseIso_toIso {s : String} {d : PyDate}
    (h : parseIso s = some d) : toIso d = s := by
  unfold parseIso at h
  unfold toIso
  rw [parseIsoChars_roundtrip h]
  rfl

theorem findById_id {db : List PromotionObj} {pid : Int} {p : PromotionObj}
    (hfind : findById db pid = some p) : p.id = some pid := by
  unfold findById at hfind
  have h2 := List.find?_some hfind
  simpa using h2

theorem findById_replaceById {db : List PromotionObj} {pid : Int} {p : PromotionObj}
    (q : PromotionObj) (hfind : findById db pid = some p) (hq : q.id = some pid) :
    findById (replaceById db pid q) pid = some q := by
  induction db with
  | nil => simp [findById] at hfind
  | cons r t ih =>
    by_cases hr : r.id = some pid
    · simp [findById, replaceById, List.find?, hr, hq]
    · have ht : findById t pid = some p := by
        simpa [findById, List.find?, hr] using hfind
      have := ih ht
      simpa [findById, replaceById, List.find?, hr] using this

theorem replaceById_idem {db : List PromotionObj} {pid : Int} {q : PromotionObj}
    (hq : q.id = some pid) :
    replaceById (replaceById db pid q) pid q = replaceById db pid q := by
  unfold replaceById
  rw [List.map_map]
  congr 1
  funext r
  by_cases hr : r.id = some pid <;> simp [Function.comp, hr, hq]

/-! ## Sample data for witnesses -/

/-- A stored promotion used to instantiate witnesses. -/
def sampleProm : PromotionObj :=
  ⟨some 1, pyStr "Sale", pyStr "Percentage off", pyInt 20, pyInt 7,
   some ⟨2024, 1, 1⟩, some ⟨2024, 12, 31⟩⟩

/-! ## Claim theorems -/

/-- C1: deactivating an existing promotion (found by a non-zero id and
with its stored end date set) updates the stored record so that
`end_date = min(old end_date, today - 1 day)`: an end date on or after
yesterday becomes exactly yesterday, an end date already earlier than
yesterday is kept unchanged, and `id`, `name`, `promotion_type`,
`value`, `product_id`, `start_date` are all unchanged. -/
theorem C1_deactivate_sets_min_end_date
    (db : List PromotionObj) (today : PyDate) (pid : Int)
    (p : PromotionObj) (e : PyDate)
    (hfind : findById db pid = some p) (hpid : pid ≠ 0)
    (hend : p.end_date = some e) :
    ∃ p2, deactivateHandler db today pid = .ok (p2, replaceById db pid p2) ∧
      p2.end_date = some (pyMin e (predDate today)) ∧
      p2.id = p.id ∧ p2.name = p.name ∧
      p2.promotion_type = p.promotion_type ∧ p2.value = p.value ∧
      p2.product_id = p.product_id ∧ p2.start_date = p.start_date ∧
      (PyDate.leb (predDate today) e = true → p2.end_date = some (predDate today)) ∧
      (PyDate.ltb e (predDate today) = true → p2.end_date = some e) := by
  have hid := findById_id hfind
  refine ⟨{ p with end_date := some (pyMin e (predDate today)) }, ?_, by simp,
    by simp, by simp, by simp, by simp, by simp, by simp, ?_, ?_⟩
  · unfold deactivateHandler
    rw [hfind]
    simp [hend, updateRejectsId, hid, hpid]
  · intro hle
    simp [pyMin_eq_right hle]
  · intro hlt
    simp [pyMin_eq_left hlt]

/-- C1 witness: the theorem applied to a one-record store on 2024-06-01,
with every hypothesis discharged by evaluation. -/
theorem C1_deactivate_sets_min_end_date_witness :
    findById [sampleProm] 1 = some sampleProm ∧ (1 : Int) ≠ 0 ∧
      sampleProm.end_date = some ⟨2024, 12, 31⟩ ∧
      ∃ p2, deactivateHandler [sampleProm] ⟨2024, 6, 1⟩ 1 =
          .ok (p2, replaceById [sampleProm] 1 p2) ∧
        p2.end_date = some (pyMin ⟨2024, 12, 31⟩ (predDate ⟨2024, 6, 1⟩)) ∧
        p2.id = sampleProm.id ∧ p2.name = sampleProm.name ∧
        p2.promotion_type = sampleProm.promotion_type ∧
        p2.value = sampleProm.value ∧
        p2.product_id = sampleProm.product_id ∧
        p2.start_date = sampleProm.start_date ∧
        (PyDate.leb (predDate ⟨2024, 6, 1⟩) ⟨2024, 12, 31⟩ = true →
          p2.end_date = some (predDate ⟨2024, 6, 1⟩)) ∧
        (PyDate.ltb ⟨2024, 12, 31⟩ (predDate ⟨2024, 6, 1⟩) = true →
          p2.end_date = some ⟨2024, 12, 31⟩) :=
  ⟨by decide, by decide, by decide,
   C1_deactivate_sets_min_end_date [sampleProm] ⟨2024, 6, 1⟩ 1 sampleProm
     ⟨2024, 12, 31⟩ (by decide) (by decide) (by decide)⟩

/-- C2: deactivate is idempotent: on an existing promotion, running the
deactivate action a second time with the same `today` returns the same
record and leaves the store exactly as after the first run. -/
theorem C2_deactivate_idempotent
    (db : List PromotionObj) (today : PyDate) (pid : Int)
    (p : PromotionObj) (e : PyDate)
    (hfind : findById db pid = some p) (hpid : pid ≠ 0)
    (hend : p.end_date = some e) :
    ∃ p2 db2, deactivateHandler db today pid = .ok (p2, db2) ∧
      deactivateHandler db2 today pid = .ok (p2, db2) := by
  have hid := findById_id hfind
  refine ⟨{ p with end_date := some (pyMin e (predDate today)) },
    replaceById db pid { p with end_date := some (pyMin e (predDate today)) },
    ?_, ?_⟩
  · unfold deactivateHandler
    rw [hfind]
    simp [hend, updateRejectsId, hid, hpid]
  · have hfind2 := findById_replaceById
      { p with end_date := some (pyMin e (predDate today)) } hfind (by simp [hid])
    unfold deactivateHandler
    rw [hfind2]
    simp [updateRejectsId, hid, hpid, pyMin_idem]
    exact replaceById_idem (by simp [hid])

/-- Unfolded form of the active-window predicate. -/
theorem activeOn_iff {today : PyDate} {p : PromotionObj} :
    activeOn today p = true ↔
      ∃ sd ed, p.start_date = some sd ∧ p.end_date = some ed ∧
        PyDate.leb sd today = true ∧ PyDate.leb today ed = true := by
  cases hs : p.start_date <;> cases he : p.end_date <;>
    simp [activeOn, hs, he]

/-- Unfolded form of the inactive predicate of the `active=false` branch. -/
theorem inactiveOn_iff {today : PyDate} {p : PromotionObj} :
    inactiveOn today p = true ↔
      ∃ sd ed, p.start_date = some sd ∧ p.end_date = some ed ∧
        (PyDate.ltb today sd = true ∨ PyDate.ltb ed today = true) := by
  cases hs : p.start_date <;> cases he : p.end_date <;>
    simp [inactiveOn, hs, he]

/-- C2 witness: the theorem applied to a one-record store on 2024-06-01. -/
theorem C2_deactivate_idempotent_witness :
    findById [sampleProm] 1 = some sampleProm ∧ (1 : Int) ≠ 0 ∧
      sampleProm.end_date = some ⟨2024, 12, 31⟩ ∧
      ∃ p2 db2, deactivateHandler [sampleProm] ⟨2024, 6, 1⟩ 1 = .ok (p2, db2) ∧
        deactivateHandler db2 ⟨2024, 6, 1⟩ 1 = .ok (p2, db2) :=
  ⟨by decide, by decide, by decide,
   C2_deactivate_idempotent [sampleProm] ⟨2024, 6, 1⟩ 1 sampleProm
     ⟨2024, 12, 31⟩ (by decide) (by decide) (by decide)⟩

theorem optTruthy_none : optTruthy none = false := rfl

/-- C3: the list operation applies its optional filters with fixed
precedence id > active > name > product_id > promotion_type > no filter:
the response is determined solely by the highest-priority filter that is
present (a string filter is present when non-empty, mirroring the
handler's Python truthiness test; `active` is present whenever the
parameter is supplied), and all lower-priority filters are ignored. -/
theorem C3_list_filter_precedence
    (db : List PromotionObj) (today : PyDate)
    (idp act nm pidp pt : Option String) :
    (optTruthy idp = true →
      listPromotions db today idp act nm pidp pt =
        listPromotions db today idp none none none none) ∧
    (optTruthy idp = false → ∀ a, act = some a →
      listPromotions db today idp act nm pidp pt =
        listPromotions db today none (some a) none none none) ∧
    (optTruthy idp = false → act = none → optTruthy nm = true →
      listPromotions db today idp act nm pidp pt =
        listPromotions db today none none nm none none) ∧
    (optTruthy idp = false → act = none → optTruthy nm = false →
      optTruthy pidp = true →
      listPromotions db today idp act nm pidp pt =
        listPromotions db today none none none pidp none) ∧
    (optTruthy idp = false → act = none → optTruthy nm = false →
      optTruthy pidp = false → optTruthy pt = true →
      listPromotions db today idp act nm pidp pt =
        listPromotions db today none none none none pt) ∧
    (optTruthy idp = false → act = none → optTruthy nm = false →
      optTruthy pidp = false → optTruthy pt = false →
      listPromotions db today idp act nm pidp pt = .ok db) := by
  refine ⟨?_, ?_, ?_, ?_, ?_, ?_⟩
  · intro h
    simp [listPromotions, h]
  · intro h a ha
    subst ha
    simp [listPromotions, h, optTruthy_none]
  · intro h ha hn
    subst ha
    simp [listPromotions, h, hn, optTruthy_none]
  · intro h ha hn hp
    subst ha
    simp [listPromotions, h, hn, hp, optTruthy_none]
  · intro h ha hn hp ht
    subst ha
    simp [listPromotions, h, hn, hp, ht, optTruthy_none]
  · intro h ha hn hp ht
    subst ha
    simp [listPromotions, h, hn, hp, ht, optTruthy_none]

/-- C3 witness: each precedence clause applied at concrete parameters;
in particular a request with both `id=5` and `name=foo` returns exactly
what `id=5` alone returns. -/
theorem C3_list_filter_precedence_witness :
    (optTruthy (some "5") = true ∧
      listPromotions [sampleProm] ⟨2024, 6, 1⟩ (some "5") none (some "foo") none none =
        listPromotions [sampleProm] ⟨2024, 6, 1⟩ (some "5") none none none none) ∧
    (listPromotions [sampleProm] ⟨2024, 6, 1⟩ none (some "true") (some "foo") none none =
      listPromotions [sampleProm] ⟨2024, 6, 1⟩ none (some "true") none none none) ∧
    (listPromotions [sampleProm] ⟨2024, 6, 1⟩ none none (some "Sale") (some "7") (some "x") =
      listPromotions [sampleProm] ⟨2024, 6, 1⟩ none none (some "Sale") none none) ∧
    (listPromotions [sampleProm] ⟨2024, 6, 1⟩ none none none (some "7") (some "x") =
      listPromotions [sampleProm] ⟨2024, 6, 1⟩ none none none (some "7") none) ∧
    (listPromotions [sampleProm] ⟨2024, 6, 1⟩ none none none none (some "x") =
      listPromotions [sampleProm] ⟨2024, 6, 1⟩ none none none none (some "x")) ∧
    (listPromotions [sampleProm] ⟨2024, 6, 1⟩ none none none none none =
      .ok [sampleProm]) :=
  ⟨⟨by decide,
    (C3_list_filter_precedence [sampleProm] ⟨2024, 6, 1⟩ (some "5") none
      (some "foo") none none).1 (by decide)⟩,
   (C3_list_filter_precedence [sampleProm] ⟨2024, 6, 1⟩ none (some "true")
      (some "foo") none none).2.1 (by decide) "true" rfl,
   (C3_list_filter_precedence [sampleProm] ⟨2024, 6, 1⟩ none none
      (some "Sale") (some "7") (some "x")).2.2.1 (by decide) rfl (by decide),
   (C3_list_filter_precedence [sampleProm] ⟨2024, 6, 1⟩ none none none
      (some "7") (some "x")).2.2.2.1 (by decide) rfl (by decide) (by decide),
   (C3_list_filter_precedence [sampleProm] ⟨2024, 6, 1⟩ none none none none
      (some "x")).2.2.2.2.1 (by decide) rfl (by decide) (by decide) (by decide),
   (C3_list_filter_precedence [sampleProm] ⟨2024, 6, 1⟩ none none none none
      none).2.2.2.2.2 (by decide) rfl (by decide) (by decide) (by decide)⟩

/-- C4: the `active` filter parses its value trimmed and
case-insensitively: `true/1/yes` selects exactly the stored promotions
with `start_date <= today <= end_date` (both ends inclusive),
`false/0/no` selects exactly those with `start_date > today` or
`end_date < today`, and any other non-empty value is rejected with a
400 user error. -/
theorem C4_active_filter_semantics
    (db : List PromotionObj) (today : PyDate) (s : String) :
    ((pyLower (pyStrip s) = "true" ∨ pyLower (pyStrip s) = "1" ∨
        pyLower (pyStrip s) = "yes") →
      ∃ l, listPromotions db today none (some s) none none none = .ok l ∧
        ∀ p, p ∈ l ↔ p ∈ db ∧
          ∃ sd ed, p.start_date = some sd ∧ p.end_date = some ed ∧
            PyDate.leb sd today = true ∧ PyDate.leb today ed = true) ∧
    ((pyLower (pyStrip s) = "false" ∨ pyLower (pyStrip s) = "0" ∨
        pyLower (pyStrip s) = "no") →
      ∃ l, listPromotions db today none (some s) none none none = .ok l ∧
        ∀ p, p ∈ l ↔ p ∈ db ∧
          ∃ sd ed, p.start_date = some sd ∧ p.end_date = some ed ∧
            (PyDate.ltb today sd = true ∨ PyDate.ltb ed today = true)) ∧
    (¬s = "" → parseBoolStrict s = none →
      listPromotions db today none (some s) none none none =
        .error (400, invalidActiveMsg s)) := by
  refine ⟨?_, ?_, ?_⟩
  · intro h
    have hp : parseBoolStrict s = some true := by
      unfold parseBoolStrict
      simp [h]
    refine ⟨findActive db today, ?_, ?_⟩
    · simp [listPromotions, optTruthy_none, hp]
    · intro p
      simp [findActive, List.mem_filter, activeOn_iff]
  · intro h
    have hfalse : ¬(pyLower (pyStrip s) = "true" ∨ pyLower (pyStrip s) = "1" ∨
        pyLower (pyStrip s) = "yes") := by
      rcases h with h | h | h <;> simp [h]
    have hp : parseBoolStrict s = some false := by
      unfold parseBoolStrict
      simp [hfalse, h]
    refine ⟨db.filter (inactiveOn today), ?_, ?_⟩
    · simp [listPromotions, optTruthy_none, hp]
    · intro p
      simp [List.mem_filter, inactiveOn_iff]
  · intro _ hp
    simp [listPromotions, optTruthy_none, hp]

/-- C4 witness: the three clauses applied on a concrete store and date:
`" YES "` selects the in-window record, `"no"` selects none of a
one-record in-window store, and `"maybe"` is rejected with a 400. -/
theorem C4_active_filter_semantics_witness :
    ((pyLower (pyStrip " YES ") = "true" ∨ pyLower (pyStrip " YES ") = "1" ∨
        pyLower (pyStrip " YES ") = "yes") ∧
      ∃ l, listPromotions [sampleProm] ⟨2024, 6, 1⟩ none (some " YES ") none none none =
          .ok l ∧
        ∀ p, p ∈ l ↔ p ∈ [sampleProm] ∧
          ∃ sd ed, p.start_date = some sd ∧ p.end_date = some ed ∧
            PyDate.leb sd ⟨2024, 6, 1⟩ = true ∧ PyDate.leb ⟨2024, 6, 1⟩ ed = true) ∧
    (∃ l, listPromotions [sampleProm] ⟨2024, 6, 1⟩ none (some "no") none none none =
        .ok l ∧
      ∀ p, p ∈ l ↔ p ∈ [sampleProm] ∧
        ∃ sd ed, p.start_date = some sd ∧ p.end_date = some ed ∧
          (PyDate.ltb ⟨2024, 6, 1⟩ sd = true ∨ PyDate.ltb ed ⟨2024, 6, 1⟩ = true)) ∧
    (listPromotions [sampleProm] ⟨2024, 6, 1⟩ none (some "maybe") none none none =
      .error (400, invalidActiveMsg "maybe")) :=
  ⟨⟨by decide,
    (C4_active_filter_semantics [sampleProm] ⟨2024, 6, 1⟩ " YES ").1 (by decide)⟩,
   (C4_active_filter_semantics [sampleProm] ⟨2024, 6, 1⟩ "no").2.1 (by decide),
   (C4_active_filter_semantics [sampleProm] ⟨2024, 6, 1⟩ "maybe").2.2
     (by decide) (by decide)⟩

/-- C8 counterexample: the claim says a blank `promotion_type`
parameter yields an empty list, but on a one-record store the empty
parameter returns the whole store (the handler's truthiness test treats
the empty string as "no filter supplied"). -/
theorem C8_blank_promotion_type_counterexample :
    listPromotions [sampleProm] ⟨2024, 6, 1⟩ none none none none (some "") =
      .ok [sampleProm] ∧
    listPromotions [sampleProm] ⟨2024, 6, 1⟩ none none none none (some "") ≠
      .ok [] := by decide

/-- C8 amended: a non-empty `promotion_type` value is trimmed and
matched exactly against stored `promotion_type` values; a
whitespace-only (but non-empty) value is trimmed to the empty string
and matches only records whose stored type is the empty string — an
empty list whenever no such record exists; an empty-string parameter is
treated as no filter and returns all records. -/
theorem C8_promotion_type_filter_amended
    (db : List PromotionObj) (today : PyDate) (s : String) :
    (s = "" →
      listPromotions db today none none none none (some s) = .ok db) ∧
    (¬s = "" →
      listPromotions db today none none none none (some s) =
        .ok (findByPromotionType db (pyStrip s))) ∧
    (¬s = "" → pyStrip s = "" →
      (∀ p ∈ db, ¬p.promotion_type = pyStr "") →
      listPromotions db today none none none none (some s) = .ok []) := by
  have htruthy : ∀ t : String, ¬t = "" → optTruthy (some t) = true := by
    intro t hne
    have hf : t.isEmpty = false := by
      cases hc : t.isEmpty
      · rfl
      · exact absurd ((String.isEmpty_iff t).mp (by simp [hc])) hne
    simp [optTruthy, hf]
  refine ⟨?_, ?_, ?_⟩
  · intro h
    subst h
    have h0 : optTruthy (some "") = false := by decide
    simp [listPromotions, h0, optTruthy_none]
  · intro h
    simp [listPromotions, optTruthy_none, htruthy s h]
  · intro h hs hall
    simp [listPromotions, optTruthy_none, htruthy s h, hs, findByPromotionType]
    intro p hp
    simpa using hall p hp

/-- C8 amended witness: the empty parameter returns the whole store;
`"x"` filters by exact match; the whitespace-only parameter `" "` on a
store without empty-typed records returns the empty list. -/
theorem C8_promotion_type_filter_amended_witness :
    (listPromotions [sampleProm] ⟨2024, 6, 1⟩ none none none none (some "") =
      .ok [sampleProm]) ∧
    (listPromotions [sampleProm] ⟨2024, 6, 1⟩ none none none none (some "x") =
      .ok (findByPromotionType [sampleProm] (pyStrip "x"))) ∧
    (listPromotions [sampleProm] ⟨2024, 6, 1⟩ none none none none (some " ") =
      .ok []) :=
  ⟨(C8_promotion_type_filter_amended [sampleProm] ⟨2024, 6, 1⟩ "").1 rfl,
   (C8_promotion_type_filter_amended [sampleProm] ⟨2024, 6, 1⟩ "x").2.1
     (by decide),
   (C8_promotion_type_filter_amended [sampleProm] ⟨2024, 6, 1⟩ " ").2.2
     (by decide) (by decide) (by decide)⟩

/-- A well-typed payload used to instantiate witnesses. -/
def samplePayload : Payload :=
  [("name", pyStr "Sale"), ("promotion_type", pyStr "Percentage off"),
   ("value", pyInt 20), ("product_id", pyInt 7),
   ("start_date", pyStr "2024-01-01"), ("end_date", pyStr "2024-12-31")]

/-- The record produced by deserializing `samplePayload`. -/
def samplePayloadObj : PromotionObj :=
  ⟨none, pyStr "Sale", pyStr "Percentage off", pyInt 20, pyInt 7,
   some ⟨2024, 1, 1⟩, some ⟨2024, 12, 31⟩⟩

/-- C5: for every payload carrying the six required fields correctly
typed (strings for `name`/`promotion_type`, integers for
`value`/`product_id`, parseable ISO `YYYY-MM-DD` strings for the
dates), `deserialize` succeeds, and `serialize` of the result
reproduces the six field values with the dates rendered as ISO
`YYYY-MM-DD` strings — identical to the input date strings. -/
theorem C5_serialize_deserialize_roundtrip
    (data : Payload) (nms tys : String) (v pid : Int) (sds eds : String)
    (d1 d2 : PyDate)
    (h1 : pyGet data "name" = some (pyStr nms))
    (h2 : pyGet data "promotion_type" = some (pyStr tys))
    (h3 : pyGet data "value" = some (pyInt v))
    (h4 : pyGet data "product_id" = some (pyInt pid))
    (h5 : pyGet data "start_date" = some (pyStr sds))
    (h6 : parseIso sds = some d1)
    (h7 : pyGet data "end_date" = some (pyStr eds))
    (h8 : parseIso eds = some d2) :
    deserialize emptyPromotion data =
      .ok ({ emptyPromotion with
             name := pyStr nms
             promotion_type := pyStr tys
             value := pyInt v
             product_id := pyInt pid
             start_date := some d1
             end_date := some d2 }) ∧
    serialize ({ emptyPromotion with
                 name := pyStr nms
                 promotion_type := pyStr tys
                 value := pyInt v
                 product_id := pyInt pid
                 start_date := some d1
                 end_date := some d2 }) =
      [("id", pyNone), ("name", pyStr nms), ("promotion_type", pyStr tys),
       ("value", pyInt v), ("product_id", pyInt pid),
       ("start_date", pyStr sds), ("end_date", pyStr eds)] := by
  constructor
  · simp [deserialize, h1, h2, h3, h4, h5, h6, h7, h8, isPyInt]
  · simp [serialize, emptyPromotion, parseIso_toIso h6, parseIso_toIso h8]

/-- C5 witness: the round trip evaluated on a concrete payload. -/
theorem C5_serialize_deserialize_roundtrip_witness :
    deserialize emptyPromotion samplePayload = .ok samplePayloadObj ∧
    serialize samplePayloadObj =
      [("id", pyNone), ("name", pyStr "Sale"),
       ("promotion_type", pyStr "Percentage off"),
       ("value", pyInt 20), ("product_id", pyInt 7),
       ("start_date", pyStr "2024-01-01"), ("end_date", pyStr "2024-12-31")] :=
  C5_serialize_deserialize_roundtrip samplePayload "Sale" "Percentage off"
    20 7 "2024-01-01" "2024-12-31" ⟨2024, 1, 1⟩ ⟨2024, 12, 31⟩
    (by decide) (by decide) (by decide) (by decide) (by decide) (by decide)
    (by decide) (by decide)

/-- A payload with every required field except `value`. -/
def payloadMissingValue : Payload :=
  [("name", pyStr "Sale"), ("promotion_type", pyStr "Percentage off"),
   ("product_id", pyInt 7),
   ("start_date", pyStr "2024-01-01"), ("end_date", pyStr "2024-12-31")]

/-- C6 counterexample: the claim says a payload missing any required
key fails with the "missing field" error naming the key, but a payload
missing only `value` fails with the integer-type message (the code
reads `value` with `dict.get`, so no `KeyError` is raised), which is
not the missing-field message. -/
theorem C6_missing_key_counterexample :
    pyGet payloadMissingValue "value" = none ∧
    deserialize emptyPromotion payloadMissingValue =
      .error (intFieldMsg "value") ∧
    intFieldMsg "value" ≠ missingMsg "value" := by decide

/-- C6 amended: deserialize fails whenever a required key is missing,
but only a missing `name` or `promotion_type` (read with `data[k]`,
raising `KeyError`) produces the "missing field" error naming the key;
a missing `value`/`product_id` produces the integer-type error for that
field, and a missing `start_date`/`end_date` produces the ISO-date
error for that field. -/
theorem C6_missing_key_errors_amended (p : PromotionObj) (data : Payload) :
    (pyGet data "name" = none →
      deserialize p data = .error (missingMsg "name")) ∧
    (∀ nv, pyGet data "name" = some nv →
      pyGet data "promotion_type" = none →
      deserialize p data = .error (missingMsg "promotion_type")) ∧
    (∀ nv tv, pyGet data "name" = some nv →
      pyGet data "promotion_type" = some tv →
      pyGet data "value" = none →
      deserialize p data = .error (intFieldMsg "value")) ∧
    (∀ nv tv vv, pyGet data "name" = some nv →
      pyGet data "promotion_type" = some tv →
      pyGet data "value" = some vv → isPyInt vv = true →
      pyGet data "product_id" = none →
      deserialize p data = .error (intFieldMsg "product_id")) ∧
    (∀ nv tv vv pv, pyGet data "name" = some nv →
      pyGet data "promotion_type" = some tv →
      pyGet data "value" = some vv → isPyInt vv = true →
      pyGet data "product_id" = some pv → isPyInt pv = true →
      pyGet data "start_date" = none →
      deserialize p data = .error (badDateMsg "start_date")) ∧
    (∀ nv tv vv pv sds sd, pyGet data "name" = some nv →
      pyGet data "promotion_type" = some tv →
      pyGet data "value" = some vv → isPyInt vv = true →
      pyGet data "product_id" = some pv → isPyInt pv = true →
      pyGet data "start_date" = some (pyStr sds) → parseIso sds = some sd →
      pyGet data "end_date" = none →
      deserialize p data = .error (badDateMsg "end_date")) ∧
    ((pyGet data "name" = none ∨ pyGet data "promotion_type" = none ∨
        pyGet data "value" = none ∨ pyGet data "product_id" = none ∨
        pyGet data "start_date" = none ∨ pyGet data "end_date" = none) →
      ∃ m, deserialize p data = .error m) := by
  refine ⟨?_, ?_, ?_, ?_, ?_, ?_, ?_⟩
  · intro h
    simp [deserialize, h]
  · intro nv h1 h2
    simp [deserialize, h1, h2]
  · intro nv tv h1 h2 h3
    simp [deserialize, h1, h2, h3]
  · intro nv tv vv h1 h2 h3 h3i h4
    simp [deserialize, h1, h2, h3, h3i, h4]
  · intro nv tv vv pv h1 h2 h3 h3i h4 h4i h5
    simp [deserialize, h1, h2, h3, h3i, h4, h4i, h5]
  · intro nv tv vv pv sds sd h1 h2 h3 h3i h4 h4i h5 h6 h7
    simp [deserialize, h1, h2, h3, h3i, h4, h4i, h5, h6, h7]
  · intro h
    unfold deserialize
    repeat' split
    all_goals
      first
        | exact ⟨_, rfl⟩
        | (rcases h with h | h | h | h | h | h <;> simp_all)

/-- C6 amended witness: each clause applied at a concrete payload. -/
theorem C6_missing_key_errors_amended_witness :
    (deserialize emptyPromotion [] = .error (missingMsg "name")) ∧
    (deserialize emptyPromotion [("name", pyStr "Sale")] =
      .error (missingMsg "promotion_type")) ∧
    (deserialize emptyPromotion payloadMissingValue =
      .error (intFieldMsg "value")) ∧
    (deserialize emptyPromotion
        [("name", pyStr "Sale"), ("promotion_type", pyStr "P"),
         ("value", pyInt 1)] = .error (intFieldMsg "product_id")) ∧
    (deserialize emptyPromotion
        [("name", pyStr "Sale"), ("promotion_type", pyStr "P"),
         ("value", pyInt 1), ("product_id", pyInt 2)] =
      .error (badDateMsg "start_date")) ∧
    (deserialize emptyPromotion
        [("name", pyStr "Sale"), ("promotion_type", pyStr "P"),
         ("value", pyInt 1), ("product_id", pyInt 2),
         ("start_date", pyStr "2024-01-01")] =
      .error (badDateMsg "end_date")) :=
  ⟨(C6_missing_key_errors_amended emptyPromotion []).1 (by decide),
   (C6_missing_key_errors_amended emptyPromotion
      [("name", pyStr "Sale")]).2.1 (pyStr "Sale") (by decide) (by decide),
   (C6_missing_key_errors_amended emptyPromotion payloadMissingValue).2.2.1
     (pyStr "Sale") (pyStr "Percentage off") (by decide) (by decide) (by decide),
   (C6_missing_key_errors_amended emptyPromotion
      [("name", pyStr "Sale"), ("promotion_type", pyStr "P"),
       ("value", pyInt 1)]).2.2.2.1
     (pyStr "Sale") (pyStr "P") (pyInt 1)
     (by decide) (by decide) (by decide) (by decide) (by decide),
   (C6_missing_key_errors_amended emptyPromotion
      [("name", pyStr "Sale"), ("promotion_type", pyStr "P"),
       ("value", pyInt 1), ("product_id", pyInt 2)]).2.2.2.2.1
     (pyStr "Sale") (pyStr "P") (pyInt 1) (pyInt 2)
     (by decide) (by decide) (by decide) (by decide) (by decide) (by decide)
     (by decide),
   (C6_missing_key_errors_amended emptyPromotion
      [("name", pyStr "Sale"), ("promotion_type", pyStr "P"),
       ("value", pyInt 1), ("product_id", pyInt 2),
       ("start_date", pyStr "2024-01-01")]).2.2.2.2.2.1
     (pyStr "Sale") (pyStr "P") (pyInt 1) (pyInt 2) "2024-01-01" ⟨2024, 1, 1⟩
     (by decide) (by decide) (by decide) (by decide) (by decide) (by decide)
     (by decide) (by decide) (by decide)⟩

/-- A payload whose `value` is the string "ten". -/
def payloadStrValue : Payload :=
  [("name", pyStr "Sale"), ("promotion_type", pyStr "Percentage off"),
   ("value", pyStr "ten"), ("product_id", pyInt 7),
   ("start_date", pyStr "2024-01-01"), ("end_date", pyStr "2024-12-31")]

/-- A payload whose `value` is a float. -/
def payloadFloatValue : Payload :=
  [("name", pyStr "Sale"), ("promotion_type", pyStr "Percentage off"),
   ("value", pyFloat), ("product_id", pyInt 7),
   ("start_date", pyStr "2024-01-01"), ("end_date", pyStr "2024-12-31")]

/-- C7 counterexample: the claim says the wrong-type error names the
field AND the offending type, but a string-valued and a float-valued
`value` produce the identical constant message
`Field 'value' must be an integer`, which therefore cannot name
the offending type. -/
theorem C7_wrong_type_counterexample :
    deserialize emptyPromotion payloadStrValue =
      .error (intFieldMsg "value") ∧
    deserialize emptyPromotion payloadFloatValue =
      .error (intFieldMsg "value") ∧
    intFieldMsg "value" = "Field 'value' must be an integer" := by
  decide

/-- C7 amended: a non-integer `value` or `product_id` makes deserialize
fail with the error `Field '<field>' must be an integer`, naming
the field and the required type but not the offending type. -/
theorem C7_wrong_type_error_amended (p : PromotionObj) (data : Payload) :
    (∀ nv tv vv, pyGet data "name" = some nv →
      pyGet data "promotion_type" = some tv →
      pyGet data "value" = some vv → isPyInt vv = false →
      deserialize p data = .error (intFieldMsg "value")) ∧
    (∀ nv tv vv pv, pyGet data "name" = some nv →
      pyGet data "promotion_type" = some tv →
      pyGet data "value" = some vv → isPyInt vv = true →
      pyGet data "product_id" = some pv → isPyInt pv = false →
      deserialize p data = .error (intFieldMsg "product_id")) := by
  constructor
  · intro nv tv vv h1 h2 h3 h3i
    simp [deserialize, h1, h2, h3, h3i]
  · intro nv tv vv pv h1 h2 h3 h3i h4 h4i
    simp [deserialize, h1, h2, h3, h3i, h4, h4i]

/-- C7 amended witness: a string `value` and a string `product_id`. -/
theorem C7_wrong_type_error_amended_witness :
    (deserialize emptyPromotion payloadStrValue =
      .error (intFieldMsg "value")) ∧
    (deserialize emptyPromotion
        [("name", pyStr "Sale"), ("promotion_type", pyStr "P"),
         ("value", pyInt 1), ("product_id", pyStr "seven")] =
      .error (intFieldMsg "product_id")) :=
  ⟨(C7_wrong_type_error_amended emptyPromotion payloadStrValue).1
     (pyStr "Sale") (pyStr "Percentage off") (pyStr "ten")
     (by decide) (by decide) (by decide) (by decide),
   (C7_wrong_type_error_amended emptyPromotion
      [("name", pyStr "Sale"), ("promotion_type", pyStr "P"),
       ("value", pyInt 1), ("product_id", pyStr "seven")]).2
     (pyStr "Sale") (pyStr "P") (pyInt 1) (pyStr "seven")
     (by decide) (by decide) (by decide) (by decide) (by decide) (by decide)⟩

/-- C10: Python booleans pass the `isinstance(..., int)` guard (`bool`
is a subclass of `int`), so a payload whose `value` and `product_id`
are `True`/`False` deserializes successfully, storing the booleans
themselves as the field values. -/
theorem C10_bool_passes_integer_check
    (p : PromotionObj) (data : Payload) (nv tv : PyVal) (bv bp : Bool)
    (sds eds : String) (d1 d2 : PyDate)
    (h1 : pyGet data "name" = some nv)
    (h2 : pyGet data "promotion_type" = some tv)
    (h3 : pyGet data "value" = some (pyBool bv))
    (h4 : pyGet data "product_id" = some (pyBool bp))
    (h5 : pyGet data "start_date" = some (pyStr sds))
    (h6 : parseIso sds = some d1)
    (h7 : pyGet data "end_date" = some (pyStr eds))
    (h8 : parseIso eds = some d2) :
    isPyInt (pyBool bv) = true ∧ isPyInt (pyBool bp) = true ∧
    ∃ q, deserialize p data = .ok q ∧
      q.value = pyBool bv ∧ q.product_id = pyBool bp := by
  refine ⟨rfl, rfl, { p with
      name := nv, promotion_type := tv,
      value := pyBool bv, product_id := pyBool bp,
      start_date := some d1, end_date := some d2 }, ?_, by simp, by simp⟩
  simp [deserialize, h1, h2, h3, h4, h5, h6, h7, h8, isPyInt]

/-- C10 witness: a payload with `value = True`, `product_id = False`. -/
theorem C10_bool_passes_integer_check_witness :
    isPyInt (pyBool true) = true ∧ isPyInt (pyBool false) = true ∧
    ∃ q, deserialize emptyPromotion
        [("name", pyStr "Sale"), ("promotion_type", pyStr "P"),
         ("value", pyBool true), ("product_id", pyBool false),
         ("start_date", pyStr "2024-01-01"),
         ("end_date", pyStr "2024-12-31")] = .ok q ∧
      q.value = pyBool true ∧ q.product_id = pyBool false :=
  C10_bool_passes_integer_check emptyPromotion
    [("name", pyStr "Sale"), ("promotion_type", pyStr "P"),
     ("value", pyBool true), ("product_id", pyBool false),
     ("start_date", pyStr "2024-01-01"), ("end_date", pyStr "2024-12-31")]
    (pyStr "Sale") (pyStr "P") true false "2024-01-01" "2024-12-31"
    ⟨2024, 1, 1⟩ ⟨2024, 12, 31⟩
    (by decide) (by decide) (by decide) (by decide) (by decide) (by decide)
    (by decide) (by decide)

/-- C9 counterexample: the claim says deleting an id that does not
exist still yields the success-shaped 204 result, but on an empty
store the delete handler returns the 404 not-found error (matching its
own docstring and the test suite), not a 204. -/
theorem C9_delete_missing_counterexample :
    deleteHandler ([] : List PromotionObj) 1 = .error (404, notFoundMsg 1) ∧
    deleteHandler ([] : List PromotionObj) 1 ≠
      .ok (204, ([] : List PromotionObj)) := by decide

/-- C9 amended: deleting a missing id returns the 404 not-found signal,
exactly like the deactivate and update operations; deleting an existing
id removes the record and returns the 204 no-content success. -/
theorem C9_delete_notfound_amended
    (db : List PromotionObj) (pid : Int) (today : PyDate) (data : Payload) :
    (findById db pid = none →
      deleteHandler db pid = .error (404, notFoundMsg pid) ∧
      deactivateHandler db today pid = .error (404, notFoundMsg pid) ∧
      updateHandler db pid data = .error (404, notFoundMsg pid)) ∧
    (∀ p, findById db pid = some p →
      deleteHandler db pid =
        .ok (204, db.filter (fun r => !(decide (r.id = some pid))))) := by
  constructor
  · intro h
    refine ⟨?_, ?_, ?_⟩ <;>
      simp [deleteHandler, deactivateHandler, updateHandler, h]
  · intro p h
    simp [deleteHandler, h]

/-- C9 amended witness: both clauses at concrete stores. -/
theorem C9_delete_notfound_amended_witness :
    (deleteHandler ([] : List PromotionObj) 1 = .error (404, notFoundMsg 1) ∧
      deactivateHandler ([] : List PromotionObj) ⟨2024, 6, 1⟩ 1 =
        .error (404, notFoundMsg 1) ∧
      updateHandler ([] : List PromotionObj) 1 samplePayload =
        .error (404, notFoundMsg 1)) ∧
    deleteHandler [sampleProm] 1 =
      .ok (204, [sampleProm].filter (fun r => !(decide (r.id = some 1)))) :=
  ⟨(C9_delete_notfound_amended [] 1 ⟨2024, 6, 1⟩ samplePayload).1 (by decide),
   (C9_delete_notfound_amended [sampleProm] 1 ⟨2024, 6, 1⟩ samplePayload).2
     sampleProm (by decide)⟩

end Promotions
